import Mathlib

/-!
Verification of the identity-federation provisioner's directory gateway
(pkg/cloud/graph.go): the nine gateway operations, the error-classification
step they run on the response envelope, and the filter builders used for
by-name and by-subject lookups.

The transport layer (the msgraph service client) is external: each operation
is embedded as a function of the transport's outcome for the request it
issues.  Machine state is not involved: every operation is a single
request/response round trip.
-/

namespace AzureGraph

/-- Modelled from the spec: the structured service-level error that the error
classifier extracts from a response envelope (its decoder is not part of the
gateway source file).  Per the spec it is a typed value carrying a code and a
message so callers can branch on it. -/
structure GraphError where
  code : String
  message : String
deriving DecidableEq

/-- Modelled from the spec: the open/extensible additional-data envelope
attached to every directory-service response, as the classifier sees it.  Per
the spec it is one of: clean (no error object present), carrying a well-formed
structured service-level error, or malformed in a way that prevents even
checking for an error object. -/
inductive AdditionalData where
  | clean : AdditionalData
  | serviceError : GraphError → AdditionalData
  | malformed : String → AdditionalData
deriving DecidableEq

/-- Modelled from the spec: the error classifier `GetGraphError`, whose source
file is not part of the gateway source under review.  Contract from the spec:
given the additional-data payload it returns no error when none is present,
the structured error when a well-formed one is found, and a distinct decode
error when the envelope itself is malformed.  The Go pair
`(graphErr, err)` is rendered as `Except`: `.error msg` is the decode error,
`.ok (some g)` the found service error, `.ok none` the clean envelope. -/
def GetGraphError : AdditionalData → Except String (Option GraphError)
  | .clean => .ok none
  | .serviceError g => .ok (some g)
  | .malformed msg => .error msg

/-- A service principal object (models.ServicePrincipalable): server-assigned
object id, client app id, display name and tags.  Getters in the Go SDK
return pointers, so string-valued fields are `Option`. -/
structure ServicePrincipal where
  id : Option String
  appId : Option String
  displayName : Option String
  tags : List String
deriving DecidableEq

/-- An application object (models.Applicationable). -/
structure Application where
  id : Option String
  appId : Option String
  displayName : Option String
deriving DecidableEq

/-- A federated identity credential (models.FederatedIdentityCredentialable).
`issuer` and `subject` are pointer-valued in the SDK, hence `Option`. -/
structure FederatedIdentityCredential where
  id : Option String
  issuer : Option String
  subject : Option String
deriving DecidableEq

/-- A decoded single-object response: the typed payload together with the
additional-data envelope the SDK attaches to it. -/
structure ObjectResponse (α : Type) where
  additionalData : AdditionalData
  payload : α
deriving DecidableEq

/-- A decoded collection response: `value` is the result set, in the order
the backend returned it. -/
structure CollectionResponse (α : Type) where
  additionalData : AdditionalData
  value : List α
deriving DecidableEq

/-- A failure of the transport call itself (network/auth failure, or
cancellation of the call context). -/
inductive TransportError where
  | network : String → TransportError
  | contextCanceled : TransportError
deriving DecidableEq

/-- The distinct error values a gateway operation can return: a propagated
transport error, the classifier's decode error, the classifier's structured
directory-service error, a formatted by-name not-found error, and the
`ErrFederatedCredentialNotFound` sentinel. -/
inductive OpError where
  | transport : TransportError → OpError
  | decode : String → OpError
  | directoryService : GraphError → OpError
  | notFound : String → OpError
  | federatedCredentialNotFound : OpError
deriving DecidableEq

/-- getDisplayNameFilter returns a filter string for the given display name
(fmt.Sprintf interpolation of the raw value between single quotes). -/
def getDisplayNameFilter (displayName : String) : String :=
  "displayName eq '" ++ displayName ++ "'"

/-- getSubjectFilter returns a filter string for the given subject. -/
def getSubjectFilter (subject : String) : String :=
  "subject eq '" ++ subject ++ "'"

/-- CreateServicePrincipal: posts a new service principal bound to `appID`
with the given tags, then classifies the response envelope before returning
the typed payload. -/
def CreateServicePrincipal (appID : String) (tags : List String)
    (transportPost : ServicePrincipal → Except TransportError (ObjectResponse ServicePrincipal)) :
    Except OpError ServicePrincipal :=
  let body : ServicePrincipal :=
    { id := none, appId := some appID, displayName := none, tags := tags }
  match transportPost body with
  | .error e => .error (.transport e)
  | .ok sp =>
    match GetGraphError sp.additionalData with
    | .error msg => .error (.decode msg)
    | .ok (some graphErr) => .error (.directoryService graphErr)
    | .ok none => .ok sp.payload

/-- CreateApplication: posts a new application with the given display name,
then classifies the response envelope before returning the typed payload. -/
def CreateApplication (displayName : String)
    (transportPost : Application → Except TransportError (ObjectResponse Application)) :
    Except OpError Application :=
  let body : Application := { id := none, appId := none, displayName := some displayName }
  match transportPost body with
  | .error e => .error (.transport e)
  | .ok app =>
    match GetGraphError app.additionalData with
    | .error msg => .error (.decode msg)
    | .ok (some graphErr) => .error (.directoryService graphErr)
    | .ok none => .ok app.payload

/-- GetServicePrincipal: lists service principals under the display-name
filter, classifies the envelope, then returns the first element of the result
set, or the formatted not-found error when the set is empty. -/
def GetServicePrincipal (displayName : String)
    (transportGet : String → Except TransportError (CollectionResponse ServicePrincipal)) :
    Except OpError ServicePrincipal :=
  match transportGet (getDisplayNameFilter displayName) with
  | .error e => .error (.transport e)
  | .ok resp =>
    match GetGraphError resp.additionalData with
    | .error msg => .error (.decode msg)
    | .ok (some graphErr) => .error (.directoryService graphErr)
    | .ok none =>
      match resp.value with
      | [] => .error (.notFound ("service principal " ++ displayName ++ " not found"))
      | sp :: _ => .ok sp

/-- GetApplication: same contract as GetServicePrincipal, for applications. -/
def GetApplication (displayName : String)
    (transportGet : String → Except TransportError (CollectionResponse Application)) :
    Except OpError Application :=
  match transportGet (getDisplayNameFilter displayName) with
  | .error e => .error (.transport e)
  | .ok resp =>
    match GetGraphError resp.additionalData with
    | .error msg => .error (.decode msg)
    | .ok (some graphErr) => .error (.directoryService graphErr)
    | .ok none =>
      match resp.value with
      | [] => .error (.notFound ("application with display name '" ++ displayName ++ "' not found"))
      | app :: _ => .ok app

/-- DeleteServicePrincipal: the Go code returns the transport outcome of the
SDK Delete call directly.  No classifier runs: the SDK surfaces no typed
body for deletes, so any body-level envelope of the HTTP response (the
`AdditionalData` carried on transport success here) is never inspected at
this layer. -/
def DeleteServicePrincipal (objectID : String)
    (transportDelete : String → Except TransportError AdditionalData) : Option OpError :=
  match transportDelete objectID with
  | .error e => some (.transport e)
  | .ok _ => none

/-- DeleteApplication: same shape as DeleteServicePrincipal. -/
def DeleteApplication (objectID : String)
    (transportDelete : String → Except TransportError AdditionalData) : Option OpError :=
  match transportDelete objectID with
  | .error e => some (.transport e)
  | .ok _ => none

/-- AddFederatedCredential: posts the credential to the application's
federated-identity-credentials collection, classifies the envelope of the
returned object, and on a clean envelope returns no error, discarding the
returned credential (the Go code shadows `fic` with the response and never
reads it again). -/
def AddFederatedCredential (objectID : String) (fic : FederatedIdentityCredential)
    (transportPost : String → FederatedIdentityCredential →
      Except TransportError (ObjectResponse FederatedIdentityCredential)) : Option OpError :=
  match transportPost objectID fic with
  | .error e => some (.transport e)
  | .ok resp =>
    match GetGraphError resp.additionalData with
    | .error msg => some (.decode msg)
    | .ok (some graphErr) => some (.directoryService graphErr)
    | .ok none => none

/-- Outcome of a federated-credential lookup.  `nilIssuerPanic` models the Go
runtime panic raised by dereferencing a nil issuer pointer in the scan
(`*fic.GetIssuer()`): it is a crash, not a returned error. -/
inductive FicLookupResult where
  | success : FederatedIdentityCredential → FicLookupResult
  | failure : OpError → FicLookupResult
  | nilIssuerPanic : FicLookupResult
deriving DecidableEq

/-- The client-side scan of GetFederatedCredential: walk the result set in
order, dereference each element's issuer with no nil check, and return the
first element whose issuer equals the requested one. -/
def scanForIssuer (issuer : String) : List FederatedIdentityCredential → FicLookupResult
  | [] => .failure .federatedCredentialNotFound
  | fic :: rest =>
    match fic.issuer with
    | none => .nilIssuerPanic
    | some i => if i = issuer then .success fic else scanForIssuer issuer rest

/-- GetFederatedCredential: lists the application's federated credentials
under the subject filter (the backing query language cannot express a
two-field filter), classifies the envelope, then scans the result set
client-side for exact issuer equality. -/
def GetFederatedCredential (objectID issuer subject : String)
    (transportGet : String → String →
      Except TransportError (CollectionResponse FederatedIdentityCredential)) :
    FicLookupResult :=
  match transportGet objectID (getSubjectFilter subject) with
  | .error e => .failure (.transport e)
  | .ok resp =>
    match GetGraphError resp.additionalData with
    | .error msg => .failure (.decode msg)
    | .ok (some graphErr) => .failure (.directoryService graphErr)
    | .ok none => scanForIssuer issuer resp.value

/-- DeleteFederatedCredential: returns the transport outcome of the nested
Delete call directly, with no classification step. -/
def DeleteFederatedCredential (objectID federatedCredentialID : String)
    (transportDelete : String → String → Except TransportError AdditionalData) : Option OpError :=
  match transportDelete objectID federatedCredentialID with
  | .error e => some (.transport e)
  | .ok _ => none

/-- The single-quote character that delimits string literals in the service's
filter-expression syntax. -/
def squoteChar : Char := '\''

/-- A one-character string holding the quote delimiter. -/
def squote : String := String.singleton squoteChar

/-- Modelled from the spec: the body of a single-quote-delimited string
literal of the service's filter-expression syntax is well formed when every
occurrence of the delimiter inside it is escaped by doubling; a lone
delimiter would end the literal early, leaving trailing garbage. -/
def escapedLiteralBody : List Char → Bool
  | [] => true
  | [c] => !(c == squoteChar)
  | c :: c2 :: rest =>
    if c = squoteChar then c2 == squoteChar && escapedLiteralBody rest
    else escapedLiteralBody (c2 :: rest)

/-- Strips an exact expected character sequence off the front of a list,
returning the remainder, or nothing when the front differs. -/
def stripExact : List Char → List Char → Option (List Char)
  | [], rest => some rest
  | _ :: _, [] => none
  | p :: ps, c :: cs => if p = c then stripExact ps cs else none

/-- Modelled from the spec: whether `expr` is a parseable exact-match filter
expression on `field` in the service's syntax, i.e. the field name, the
comparison keyword, and a single-quote-delimited string literal whose body
escapes every interior delimiter by doubling. -/
def isParseableExactMatchFilter (field expr : String) : Bool :=
  match stripExact (field ++ " eq " ++ squote).toList expr.toList with
  | none => false
  | some rest =>
    match rest.reverse with
    | [] => false
    | c :: bodyRev => c == squoteChar && escapedLiteralBody bodyRev.reverse

/-- A concrete credential whose issuer differs from the requested one. -/
def ficOther : FederatedIdentityCredential :=
  ⟨some "fic-1", some "https://other.example", some "system:sa:ns:name"⟩

/-- A concrete credential matching both the requested issuer and subject. -/
def ficMatch : FederatedIdentityCredential :=
  ⟨some "fic-2", some "https://issuer.example", some "system:sa:ns:name"⟩

/-- A concrete credential whose issuer pointer is nil. -/
def ficNilIssuer : FederatedIdentityCredential :=
  ⟨some "fic-3", none, some "system:sa:ns:name"⟩

/-! Helper lemmas. -/

theorem stripExact_append (p rest : List Char) : stripExact p (p ++ rest) = some rest := by
  induction p with
  | nil => rfl
  | cons c cs ih => simp [stripExact, ih]

theorem escapedLiteralBody_of_not_mem (l : List Char) (h : squoteChar ∉ l) :
    escapedLiteralBody l = true := by
  induction l with
  | nil => rfl
  | cons c cs ih =>
    have hc : ¬ c = squoteChar := fun e => h (e ▸ List.mem_cons_self c cs)
    have hcs : squoteChar ∉ cs := fun m => h (List.mem_cons_of_mem c m)
    cases cs with
    | nil =>
      simp [escapedLiteralBody]
      exact fun e => hc e
    | cons c2 rest =>
      simp only [escapedLiteralBody, if_neg hc]
      exact ih hcs

theorem parseable_of_no_quote (field v : String) (h : squoteChar ∉ v.toList) :
    isParseableExactMatchFilter field (field ++ " eq " ++ squote ++ v ++ squote) = true := by
  unfold isParseableExactMatchFilter
  have h1 : (field ++ " eq " ++ squote ++ v ++ squote).toList
      = (field ++ " eq " ++ squote).toList ++ (v.toList ++ [squoteChar]) := by
    simp [String.toList, String.data_append, squote, String.singleton, List.append_assoc]
  rw [h1, stripExact_append]
  simp only [List.reverse_append, List.reverse_cons, List.reverse_nil, List.nil_append,
    List.singleton_append, List.reverse_reverse]
  simp only [beq_self_eq_true, Bool.true_and]
  exact escapedLiteralBody_of_not_mem v.data h

theorem scanForIssuer_success_mem (issuer : String)
    (l : List FederatedIdentityCredential) (fic : FederatedIdentityCredential)
    (h : scanForIssuer issuer l = .success fic) : fic ∈ l ∧ fic.issuer = some issuer := by
  induction l with
  | nil => exact FicLookupResult.noConfusion h
  | cons f rest ih =>
    cases hi : f.issuer with
    | none =>
      rw [scanForIssuer, hi] at h
      exact FicLookupResult.noConfusion h
    | some i =>
      rw [scanForIssuer, hi] at h
      have h9 : (if i = issuer then FicLookupResult.success f
          else scanForIssuer issuer rest) = FicLookupResult.success fic := h
      by_cases he : i = issuer
      · rw [if_pos he] at h9
        obtain rfl : f = fic := by injection h9
        exact ⟨List.mem_cons_self _ rest, he ▸ hi⟩
      · rw [if_neg he] at h9
        have hr := ih h9
        exact ⟨List.mem_cons_of_mem f hr.1, hr.2⟩

theorem scanForIssuer_no_match (issuer : String) (l : List FederatedIdentityCredential)
    (hsome : ∀ f ∈ l, (f.issuer).isSome)
    (hne : ∀ f ∈ l, f.issuer ≠ some issuer) :
    scanForIssuer issuer l = .failure .federatedCredentialNotFound := by
  induction l with
  | nil => rfl
  | cons f rest ih =>
    cases hi : f.issuer with
    | none =>
      have hs := hsome f (List.mem_cons_self f rest)
      rw [hi] at hs
      exact absurd hs (by simp)
    | some i =>
      rw [scanForIssuer, hi]
      have hni : i ≠ issuer := fun e => hne f (List.mem_cons_self f rest) (e ▸ hi)
      show (if i = issuer then FicLookupResult.success f
          else scanForIssuer issuer rest) = FicLookupResult.failure .federatedCredentialNotFound
      rw [if_neg hni]
      exact ih (fun g hg => hsome g (List.mem_cons_of_mem f hg))
        (fun g hg => hne g (List.mem_cons_of_mem f hg))

theorem scanForIssuer_no_panic (issuer : String) (l : List FederatedIdentityCredential)
    (hsome : ∀ f ∈ l, (f.issuer).isSome) :
    scanForIssuer issuer l ≠ .nilIssuerPanic := by
  induction l with
  | nil => exact fun h => FicLookupResult.noConfusion h
  | cons f rest ih =>
    cases hi : f.issuer with
    | none =>
      have hs := hsome f (List.mem_cons_self f rest)
      rw [hi] at hs
      exact absurd hs (by simp)
    | some i =>
      rw [scanForIssuer, hi]
      show (if i = issuer then FicLookupResult.success f
          else scanForIssuer issuer rest) ≠ FicLookupResult.nilIssuerPanic
      by_cases he : i = issuer
      · rw [if_pos he]
        exact fun h => FicLookupResult.noConfusion h
      · rw [if_neg he]
        exact ih (fun g hg => hsome g (List.mem_cons_of_mem f hg))

theorem scanForIssuer_panic_of_nil_before_match (issuer : String)
    (l1 l2 : List FederatedIdentityCredential) (fic : FederatedIdentityCredential)
    (hnil : fic.issuer = none)
    (hpre : ∀ f ∈ l1, ∃ i, f.issuer = some i ∧ i ≠ issuer) :
    scanForIssuer issuer (l1 ++ fic :: l2) = .nilIssuerPanic := by
  induction l1 with
  | nil =>
    rw [List.nil_append, scanForIssuer, hnil]
  | cons f rest ih =>
    rw [List.cons_append, scanForIssuer]
    obtain ⟨i, hi, hne⟩ := hpre f (List.mem_cons_self f rest)
    rw [hi]
    show (if i = issuer then FicLookupResult.success f
        else scanForIssuer issuer (rest ++ fic :: l2)) = FicLookupResult.nilIssuerPanic
    rw [if_neg hne]
    exact ih (fun g hg => hpre g (List.mem_cons_of_mem f hg))

theorem scanForIssuer_head_match (issuer : String)
    (fic : FederatedIdentityCredential) (rest : List FederatedIdentityCredential)
    (h : fic.issuer = some issuer) :
    scanForIssuer issuer (fic :: rest) = .success fic := by
  rw [scanForIssuer, h]
  show (if issuer = issuer then FicLookupResult.success fic
      else scanForIssuer issuer rest) = FicLookupResult.success fic
  rw [if_pos rfl]

theorem except_error_ne_ok {ε α : Type} (e : ε) (x : α) :
    (Except.error e : Except ε α) ≠ Except.ok x :=
  fun h => Except.noConfusion h

/-! Claim theorems. -/

/-- C1 counterexample: the claim includes the three delete operations, but
DeleteServicePrincipal, DeleteApplication and DeleteFederatedCredential
return the transport outcome directly and never run GetGraphError: on a
successful transport call whose response envelope carries a structured
service-level error they return success (none) instead of that error. -/
theorem delete_ops_skip_error_classifier :
    (DeleteServicePrincipal "sp-obj-id"
        (fun _ => .ok (.serviceError ⟨"Request_BadRequest", "bad request"⟩)) = none)
  ∧ (DeleteApplication "app-obj-id"
        (fun _ => .ok (.serviceError ⟨"Request_BadRequest", "bad request"⟩)) = none)
  ∧ (DeleteFederatedCredential "app-obj-id" "fic-obj-id"
        (fun _ _ => .ok (.serviceError ⟨"Request_BadRequest", "bad request"⟩)) = none)
  ∧ ((none : Option OpError)
        ≠ some (.directoryService ⟨"Request_BadRequest", "bad request"⟩)) :=
  ⟨rfl, rfl, rfl, fun h => Option.noConfusion h⟩

/-- C1 (amended): the six payload-decoding operations (CreateServicePrincipal,
CreateApplication, GetServicePrincipal, GetApplication, AddFederatedCredential,
GetFederatedCredential) apply GetGraphError to the response's additional-data
payload immediately after a successful transport call and return its outcome
(the structured error, or the decode error) before consuming or returning the
typed result; the three delete operations return the transport outcome
directly and apply no classification to any response payload. -/
theorem classifier_application_boundary
    (g : GraphError) (m : String)
    (appID displayName objectID fcID issuer subject : String)
    (tags : List String) (fic : FederatedIdentityCredential)
    (spPayload : ServicePrincipal) (appPayload : Application)
    (ficPayload : FederatedIdentityCredential)
    (sps : List ServicePrincipal) (apps : List Application)
    (fics : List FederatedIdentityCredential) (env : AdditionalData) :
    (CreateServicePrincipal appID tags
        (fun _ => .ok ⟨.serviceError g, spPayload⟩) = .error (.directoryService g))
  ∧ (CreateServicePrincipal appID tags
        (fun _ => .ok ⟨.malformed m, spPayload⟩) = .error (.decode m))
  ∧ (CreateApplication displayName
        (fun _ => .ok ⟨.serviceError g, appPayload⟩) = .error (.directoryService g))
  ∧ (CreateApplication displayName
        (fun _ => .ok ⟨.malformed m, appPayload⟩) = .error (.decode m))
  ∧ (GetServicePrincipal displayName
        (fun _ => .ok ⟨.serviceError g, sps⟩) = .error (.directoryService g))
  ∧ (GetServicePrincipal displayName
        (fun _ => .ok ⟨.malformed m, sps⟩) = .error (.decode m))
  ∧ (GetApplication displayName
        (fun _ => .ok ⟨.serviceError g, apps⟩) = .error (.directoryService g))
  ∧ (GetApplication displayName
        (fun _ => .ok ⟨.malformed m, apps⟩) = .error (.decode m))
  ∧ (AddFederatedCredential objectID fic
        (fun _ _ => .ok ⟨.serviceError g, ficPayload⟩) = some (.directoryService g))
  ∧ (AddFederatedCredential objectID fic
        (fun _ _ => .ok ⟨.malformed m, ficPayload⟩) = some (.decode m))
  ∧ (GetFederatedCredential objectID issuer subject
        (fun _ _ => .ok ⟨.serviceError g, fics⟩) = .failure (.directoryService g))
  ∧ (GetFederatedCredential objectID issuer subject
        (fun _ _ => .ok ⟨.malformed m, fics⟩) = .failure (.decode m))
  ∧ (DeleteServicePrincipal objectID (fun _ => .ok env) = none)
  ∧ (DeleteApplication objectID (fun _ => .ok env) = none)
  ∧ (DeleteFederatedCredential objectID fcID (fun _ _ => .ok env) = none) :=
  ⟨rfl, rfl, rfl, rfl, rfl, rfl, rfl, rfl, rfl, rfl, rfl, rfl, rfl, rfl, rfl⟩

/-- C2: whenever the response envelope carries a well-formed structured
service-level error, each classifying gateway operation returns that error as
the dereferenced DirectoryServiceError value and never a successful-looking
typed object. -/
theorem structured_error_never_success
    (g : GraphError) (appID displayName objectID issuer subject : String)
    (tags : List String) (fic : FederatedIdentityCredential)
    (spPayload : ServicePrincipal) (appPayload : Application)
    (ficPayload : FederatedIdentityCredential)
    (sps : List ServicePrincipal) (apps : List Application)
    (fics : List FederatedIdentityCredential) :
    (CreateServicePrincipal appID tags (fun _ => .ok ⟨.serviceError g, spPayload⟩)
        = .error (.directoryService g)
      ∧ ∀ x, CreateServicePrincipal appID tags (fun _ => .ok ⟨.serviceError g, spPayload⟩)
        ≠ .ok x)
  ∧ (CreateApplication displayName (fun _ => .ok ⟨.serviceError g, appPayload⟩)
        = .error (.directoryService g)
      ∧ ∀ x, CreateApplication displayName (fun _ => .ok ⟨.serviceError g, appPayload⟩)
        ≠ .ok x)
  ∧ (GetServicePrincipal displayName (fun _ => .ok ⟨.serviceError g, sps⟩)
        = .error (.directoryService g)
      ∧ ∀ x, GetServicePrincipal displayName (fun _ => .ok ⟨.serviceError g, sps⟩)
        ≠ .ok x)
  ∧ (GetApplication displayName (fun _ => .ok ⟨.serviceError g, apps⟩)
        = .error (.directoryService g)
      ∧ ∀ x, GetApplication displayName (fun _ => .ok ⟨.serviceError g, apps⟩)
        ≠ .ok x)
  ∧ (AddFederatedCredential objectID fic (fun _ _ => .ok ⟨.serviceError g, ficPayload⟩)
        = some (.directoryService g)
      ∧ AddFederatedCredential objectID fic (fun _ _ => .ok ⟨.serviceError g, ficPayload⟩)
        ≠ none)
  ∧ (GetFederatedCredential objectID issuer subject (fun _ _ => .ok ⟨.serviceError g, fics⟩)
        = .failure (.directoryService g)
      ∧ ∀ x, GetFederatedCredential objectID issuer subject
        (fun _ _ => .ok ⟨.serviceError g, fics⟩) ≠ .success x) :=
  ⟨⟨rfl, fun _ h => Except.noConfusion h⟩,
   ⟨rfl, fun _ h => Except.noConfusion h⟩,
   ⟨rfl, fun _ h => Except.noConfusion h⟩,
   ⟨rfl, fun _ h => Except.noConfusion h⟩,
   ⟨rfl, fun h => Option.noConfusion h⟩,
   ⟨rfl, fun _ h => FicLookupResult.noConfusion h⟩⟩

/-- C3: a by-name lookup whose clean response carries zero elements returns
the formatted not-found error and never a successful value; and a not-found
outcome is only produced when the classifier found the envelope clean, so a
service-level or decode error is never misreported as not-found. -/
theorem empty_lookup_not_found (displayName : String)
    (env : AdditionalData) (sps : List ServicePrincipal) (apps : List Application) :
    (GetServicePrincipal displayName (fun _ => .ok ⟨.clean, ([] : List ServicePrincipal)⟩)
        = .error (.notFound ("service principal " ++ displayName ++ " not found")))
  ∧ (GetApplication displayName (fun _ => .ok ⟨.clean, ([] : List Application)⟩)
        = .error (.notFound ("application with display name '" ++ displayName ++ "' not found")))
  ∧ (∀ x, GetServicePrincipal displayName
        (fun _ => .ok ⟨.clean, ([] : List ServicePrincipal)⟩) ≠ .ok x)
  ∧ (∀ x, GetApplication displayName
        (fun _ => .ok ⟨.clean, ([] : List Application)⟩) ≠ .ok x)
  ∧ (∀ msg, GetServicePrincipal displayName (fun _ => .ok ⟨env, sps⟩)
        = .error (.notFound msg) → env = .clean)
  ∧ (∀ msg, GetApplication displayName (fun _ => .ok ⟨env, apps⟩)
        = .error (.notFound msg) → env = .clean) := by
  refine ⟨rfl, rfl, fun _ h => Except.noConfusion h, fun _ h => Except.noConfusion h, ?_, ?_⟩
  · intro msg h
    cases env with
    | clean => rfl
    | serviceError g =>
      exfalso
      have h1 : (Except.error (OpError.directoryService g) : Except OpError ServicePrincipal)
          = .error (.notFound msg) := h
      injection h1 with h2
      exact OpError.noConfusion h2
    | malformed m =>
      exfalso
      have h1 : (Except.error (OpError.decode m) : Except OpError ServicePrincipal)
          = .error (.notFound msg) := h
      injection h1 with h2
      exact OpError.noConfusion h2
  · intro msg h
    cases env with
    | clean => rfl
    | serviceError g =>
      exfalso
      have h1 : (Except.error (OpError.directoryService g) : Except OpError Application)
          = .error (.notFound msg) := h
      injection h1 with h2
      exact OpError.noConfusion h2
    | malformed m =>
      exfalso
      have h1 : (Except.error (OpError.decode m) : Except OpError Application)
          = .error (.notFound msg) := h
      injection h1 with h2
      exact OpError.noConfusion h2

/-- C4: under a backend that honors the subject filter (every element of the
returned set carries the requested subject) and returns well-formed
credentials (no nil issuer pointers), GetFederatedCredential returns a
credential only when it matches both the requested subject and the requested
issuer, and returns ErrFederatedCredentialNotFound when no element matches
both fields. -/
theorem getFederatedCredential_matches_both
    (objectID issuer subject : String) (fics : List FederatedIdentityCredential)
    (hsub : ∀ f ∈ fics, f.subject = some subject)
    (hsome : ∀ f ∈ fics, (f.issuer).isSome) :
    (∀ fic, GetFederatedCredential objectID issuer subject (fun _ _ => .ok ⟨.clean, fics⟩)
        = .success fic → fic.subject = some subject ∧ fic.issuer = some issuer)
  ∧ ((∀ f ∈ fics, ¬(f.subject = some subject ∧ f.issuer = some issuer)) →
      GetFederatedCredential objectID issuer subject (fun _ _ => .ok ⟨.clean, fics⟩)
        = .failure .federatedCredentialNotFound) := by
  constructor
  · intro fic h
    have h1 : scanForIssuer issuer fics = .success fic := h
    have h2 := scanForIssuer_success_mem issuer fics fic h1
    exact ⟨hsub fic h2.1, h2.2⟩
  · intro hno
    have hne : ∀ f ∈ fics, f.issuer ≠ some issuer := by
      intro f hf he
      exact hno f hf ⟨hsub f hf, he⟩
    have hs : scanForIssuer issuer fics = .failure .federatedCredentialNotFound :=
      scanForIssuer_no_match issuer fics hsome hne
    exact hs

/-- C4 witness: the theorem applied to a two-element result set in which only
the second element carries the requested issuer. -/
theorem getFederatedCredential_matches_both_witness :
    (∀ fic, GetFederatedCredential "app-obj-id" "https://issuer.example" "system:sa:ns:name"
        (fun _ _ => .ok ⟨.clean, [ficOther, ficMatch]⟩)
        = .success fic →
        fic.subject = some "system:sa:ns:name" ∧ fic.issuer = some "https://issuer.example")
  ∧ ((∀ f ∈ [ficOther, ficMatch],
        ¬(f.subject = some "system:sa:ns:name" ∧ f.issuer = some "https://issuer.example")) →
      GetFederatedCredential "app-obj-id" "https://issuer.example" "system:sa:ns:name"
        (fun _ _ => .ok ⟨.clean, [ficOther, ficMatch]⟩)
        = .failure .federatedCredentialNotFound) :=
  getFederatedCredential_matches_both "app-obj-id" "https://issuer.example" "system:sa:ns:name"
    [ficOther, ficMatch] (by decide) (by decide)

/-- C5 counterexample: the filter builders perform plain interpolation with no
escaping, so the value o'brien, which contains the quote delimiter, produces
a filter expression that is not parseable in the single-quote-delimited
exact-match syntax. -/
theorem filter_builder_no_escaping_cx :
    (getDisplayNameFilter "o'brien" = "displayName eq 'o'brien'")
  ∧ (isParseableExactMatchFilter "displayName" (getDisplayNameFilter "o'brien") = false)
  ∧ (getSubjectFilter "o'brien" = "subject eq 'o'brien'")
  ∧ (isParseableExactMatchFilter "subject" (getSubjectFilter "o'brien") = false) :=
  ⟨by decide, by decide, by decide, by decide⟩

/-- C5 (amended): the filter builders deterministically produce the
single-quote-delimited exact-match expression by direct interpolation of the
raw value, with no escaping: a value free of the quote delimiter yields a
parseable filter expression, but a value containing the delimiter does not
(see the counterexample). -/
theorem filter_builder_interpolation (v : String) :
    (getDisplayNameFilter v = "displayName" ++ " eq " ++ squote ++ v ++ squote)
  ∧ (getSubjectFilter v = "subject" ++ " eq " ++ squote ++ v ++ squote)
  ∧ (squoteChar ∉ v.toList →
      isParseableExactMatchFilter "displayName" (getDisplayNameFilter v) = true)
  ∧ (squoteChar ∉ v.toList →
      isParseableExactMatchFilter "subject" (getSubjectFilter v) = true) := by
  have e2 : "'" = squote := by decide
  have d1 : getDisplayNameFilter v = "displayName" ++ " eq " ++ squote ++ v ++ squote := by
    unfold getDisplayNameFilter
    rw [show "displayName eq '" = "displayName" ++ " eq " ++ squote from by decide, e2]
  have d2 : getSubjectFilter v = "subject" ++ " eq " ++ squote ++ v ++ squote := by
    unfold getSubjectFilter
    rw [show "subject eq '" = "subject" ++ " eq " ++ squote from by decide, e2]
  refine ⟨d1, d2, fun h => ?_, fun h => ?_⟩
  · rw [d1]; exact parseable_of_no_quote "displayName" v h
  · rw [d2]; exact parseable_of_no_quote "subject" v h

/-- C6: a by-name lookup whose clean response holds two or more elements
returns the first element of the result set, in backend order, without
erroring on the ambiguity and without deduplicating. -/
theorem by_name_lookup_returns_first
    (displayName : String) (sp1 sp2 : ServicePrincipal) (sps : List ServicePrincipal)
    (app1 app2 : Application) (apps : List Application) :
    (GetServicePrincipal displayName (fun _ => .ok ⟨.clean, sp1 :: sp2 :: sps⟩) = .ok sp1)
  ∧ (GetApplication displayName (fun _ => .ok ⟨.clean, app1 :: app2 :: apps⟩) = .ok app1) :=
  ⟨rfl, rfl⟩

/-- C7: when the transport call itself fails (including cancellation of the
call context), every operation propagates the transport error unchanged, and
in particular never converts it into a not-found outcome: the empty-result
check is only reached on transport success. -/
theorem transport_error_propagated
    (e : TransportError) (appID displayName objectID fcID issuer subject : String)
    (tags : List String) (fic : FederatedIdentityCredential) :
    (CreateServicePrincipal appID tags (fun _ => .error e) = .error (.transport e))
  ∧ (CreateApplication displayName (fun _ => .error e) = .error (.transport e))
  ∧ (GetServicePrincipal displayName (fun _ => .error e) = .error (.transport e))
  ∧ (GetApplication displayName (fun _ => .error e) = .error (.transport e))
  ∧ (DeleteServicePrincipal objectID (fun _ => .error e) = some (.transport e))
  ∧ (DeleteApplication objectID (fun _ => .error e) = some (.transport e))
  ∧ (AddFederatedCredential objectID fic (fun _ _ => .error e) = some (.transport e))
  ∧ (GetFederatedCredential objectID issuer subject (fun _ _ => .error e)
        = .failure (.transport e))
  ∧ (DeleteFederatedCredential objectID fcID (fun _ _ => .error e) = some (.transport e))
  ∧ (∀ m, GetServicePrincipal displayName (fun _ => .error e) ≠ .error (.notFound m))
  ∧ (∀ m, GetApplication displayName (fun _ => .error e) ≠ .error (.notFound m))
  ∧ (GetFederatedCredential objectID issuer subject (fun _ _ => .error e)
        ≠ .failure .federatedCredentialNotFound) := by
  refine ⟨rfl, rfl, rfl, rfl, rfl, rfl, rfl, rfl, rfl, ?_, ?_, ?_⟩
  · intro m h
    have h1 : (Except.error (OpError.transport e) : Except OpError ServicePrincipal)
        = .error (.notFound m) := h
    injection h1 with h2
    exact OpError.noConfusion h2
  · intro m h
    have h1 : (Except.error (OpError.transport e) : Except OpError Application)
        = .error (.notFound m) := h
    injection h1 with h2
    exact OpError.noConfusion h2
  · intro h
    have h1 : FicLookupResult.failure (OpError.transport e)
        = FicLookupResult.failure .federatedCredentialNotFound := h
    injection h1 with h2
    exact OpError.noConfusion h2

/-- C8: the delete operations surface whatever outcome the directory service
reports for the delete call unchanged — an error reported for a non-existent
objectID is returned as-is, never normalized to a successful no-op. -/
theorem delete_error_surfaced (objectID fcID : String) (e : TransportError) :
    (DeleteServicePrincipal objectID (fun _ => .error e) = some (.transport e))
  ∧ (DeleteApplication objectID (fun _ => .error e) = some (.transport e))
  ∧ (DeleteFederatedCredential objectID fcID (fun _ _ => .error e) = some (.transport e))
  ∧ (∀ oe : OpError, some oe ≠ (none : Option OpError)) :=
  ⟨rfl, rfl, rfl, fun _ h => Option.noConfusion h⟩

/-- C9 counterexample: a response containing a nil-issuer element placed after
a matching element is returned successfully: the nil issuer is never
dereferenced and no error branch is reached, so the operation is total on
inputs that violate the every-issuer-non-nil precondition. -/
theorem nil_issuer_after_match_cx :
    (GetFederatedCredential "app-obj-id" "https://issuer.example" "system:sa:ns:name"
        (fun _ _ => .ok ⟨.clean, [ficMatch, ficNilIssuer]⟩) = .success ficMatch)
  ∧ (FicLookupResult.success ficMatch ≠ .nilIssuerPanic)
  ∧ (ficNilIssuer.issuer = none) :=
  ⟨by decide, fun h => FicLookupResult.noConfusion h, rfl⟩

/-- C9 (amended): the scan of GetFederatedCredential dereferences each
element's issuer in backend order, without a nil check, until the first
match: when every element of the response has a non-nil issuer the operation
never dereferences nil; when a nil-issuer element occurs before any matching
element the nil dereference (a runtime panic) is reached before returning;
and a nil-issuer element placed after the first match is never reached. -/
theorem nil_issuer_deref_boundary
    (objectID issuer subject : String) (fics l1 l2 : List FederatedIdentityCredential)
    (fic : FederatedIdentityCredential) :
    ((∀ f ∈ fics, (f.issuer).isSome) →
      GetFederatedCredential objectID issuer subject (fun _ _ => .ok ⟨.clean, fics⟩)
        ≠ .nilIssuerPanic)
  ∧ (fic.issuer = none → (∀ f ∈ l1, ∃ i, f.issuer = some i ∧ i ≠ issuer) →
      GetFederatedCredential objectID issuer subject
        (fun _ _ => .ok ⟨.clean, l1 ++ fic :: l2⟩) = .nilIssuerPanic)
  ∧ (fic.issuer = some issuer →
      GetFederatedCredential objectID issuer subject (fun _ _ => .ok ⟨.clean, fic :: l2⟩)
        = .success fic) := by
  refine ⟨fun hsome => ?_, fun hnil hpre => ?_, fun hm => ?_⟩
  · exact scanForIssuer_no_panic issuer fics hsome
  · exact scanForIssuer_panic_of_nil_before_match issuer l1 l2 fic hnil hpre
  · exact scanForIssuer_head_match issuer fic l2 hm

/-- C10: a successful AddFederatedCredential returns only the nil error: its
result type carries no credential, and the outcome is independent of the
typed credential object the service returned — in particular of its
server-assigned objectID, which the caller therefore cannot learn from this
operation. -/
theorem add_fic_discards_response
    (objectID : String) (fic p1 p2 : FederatedIdentityCredential) (env : AdditionalData) :
    (AddFederatedCredential objectID fic (fun _ _ => .ok ⟨.clean, p1⟩) = none)
  ∧ (AddFederatedCredential objectID fic (fun _ _ => .ok ⟨env, p1⟩)
      = AddFederatedCredential objectID fic (fun _ _ => .ok ⟨env, p2⟩)) := by
  refine ⟨rfl, ?_⟩
  cases env <;> rfl

end AzureGraph
